import Mathlib

/-!
Verification of the rotation/penalty state machine of the trash-duty worker
(`src/index.js`, mature revision: `scheduled` and `fetch` handlers), the
dashboard's `deriveUpcoming` (`src/script.js`), and the SMS dispatch
discipline.  The Cloudflare KV store is modelled as an explicit record of the
three persisted values; every handler is a pure function from the store state
to the new store state plus its observable output.  JavaScript `%` on integers
is truncated remainder, `Int.tmod`; `team[i]` on an out-of-range index is
`undefined`, modelled as `none`.
-/

namespace TrashBot

/-- One entry of the `TEAM_MEMBERS` roster. -/
structure Member where
  name : String
  phone : String
deriving Repr, DecidableEq

/-- The persisted `PENALTY_BOX` value: integer fields as stored in KV.
Values may be out of range for the current roster; the handlers validate. -/
structure PenaltyBox where
  offenderIndex : Int
  weeksRemaining : Int
deriving Repr, DecidableEq

/-- The KV store: `TEAM_MEMBERS`, `CURRENT_INDEX` (parsed integer; absent
defaults to 0 before any handler runs), and optional `PENALTY_BOX`. -/
structure KVState where
  team : List Member
  currentIndex : Int
  penaltyBox : Option PenaltyBox
deriving Repr, DecidableEq

/-- `const PENALTY_LENGTH = 3` from `src/index.js`. -/
def PENALTY_LENGTH : Int := 3

/-- JavaScript array subscript `team[i]`: `undefined` (here `none`) unless
`0 ≤ i < team.length`. -/
def jsIndex (team : List Member) (i : Int) : Option Member :=
  if 0 ≤ i then team.get? i.toNat else none

/-- JavaScript `%` on integers: truncated remainder. -/
def jsMod (a b : Int) : Int := Int.tmod a b

/-- Observable output of one `scheduled` run (beyond the KV writes): the
"This Week"/"Next Week" names reported in every message, and the send queue
(one `sendSms` per roster member, in roster order).  Message bodies also
contain wall-clock dates, which are not modelled. -/
structure TickReport where
  personOnDuty : Member
  nextPersonUp : Member
  recipients : List String
deriving Repr, DecidableEq

/-- The `scheduled` handler of `src/index.js` (mature revision).  Returns the
KV state after the run together with the report, `none` when the run aborts
on an empty roster or crashes on an out-of-range member lookup while
composing messages (the KV writes of step 3 have already happened then, so
the state component is still the persisted one). -/
def scheduledTick (s : KVState) : KVState × Option TickReport :=
  if s.team.isEmpty then (s, none)
  else
    let team := s.team
    let teamSize : Int := (team.length : Int)
    -- step 2: validate the stored penalty; stale or invalid records are
    -- deleted, a valid record with weeksRemaining clamped to ≥ 0 is kept
    let validated : Option PenaltyBox :=
      match s.penaltyBox with
      | none => none
      | some pb =>
          if 0 ≤ pb.offenderIndex ∧ pb.offenderIndex < teamSize then
            if max 0 pb.weeksRemaining = 0 then none
            else some { offenderIndex := pb.offenderIndex,
                        weeksRemaining := max 0 pb.weeksRemaining }
          else none
    match validated with
    | some pb =>
        -- step 3, penalty branch: decrement and persist; index not written
        let remainingAfterThisWeek : Int := max 0 (pb.weeksRemaining - 1)
        let s2 : KVState :=
          { s with penaltyBox := some { offenderIndex := pb.offenderIndex,
                                        weeksRemaining := remainingAfterThisWeek } }
        let rep : Option TickReport :=
          match jsIndex team pb.offenderIndex with
          | none => none
          | some offender =>
              match (if 1 ≤ remainingAfterThisWeek then some offender
                     else jsIndex team s.currentIndex) with
              | none => none
              | some nxt =>
                  some { personOnDuty := offender, nextPersonUp := nxt,
                         recipients := team.map Member.phone }
        (s2, rep)
    | none =>
        -- step 3, normal branch: advance `CURRENT_INDEX`; a penalty record,
        -- if one was present, was deleted during validation
        let newIndex : Int := jsMod (s.currentIndex + 1) teamSize
        let s2 : KVState := { s with currentIndex := newIndex, penaltyBox := none }
        let rep : Option TickReport :=
          match jsIndex team newIndex, jsIndex team (jsMod (newIndex + 1) teamSize) with
          | some onDuty, some nxt =>
              some { personOnDuty := onDuty, nextPersonUp := nxt,
                     recipients := team.map Member.phone }
          | _, _ => none
        (s2, rep)

/-- The `penaltyInfo` object built by `GET /schedule` when a penalty is
recorded (`src/index.js`, mature revision).  `bannerText` and `weekString`
are derived display strings, not modelled. -/
structure PenaltyInfo where
  offenderName : String
  weeksRemaining : Int
  rawWeeksRemaining : Int
  isActive : Bool
  startsNextRotation : Bool
deriving Repr, DecidableEq

/-- Response of `GET /schedule`: `ok` is the 200 JSON body (`penaltyInfo`
`none` models the empty `{}` object); `err` is the 500
"Server configuration error" body, also produced when a member lookup inside
the `try` block throws.  The echoed raw `team`/`currentIndex`/`penaltyBox`
fields are the inputs themselves and are not repeated here. -/
inductive ScheduleResponse where
  | ok (onDuty : String) (lastWeek : String) (penaltyInfo : Option PenaltyInfo)
  | err
deriving Repr, DecidableEq

/-- The `/schedule` branch of the `fetch` handler (`src/index.js`, mature
revision).  Read-only: no KV writes. -/
def schedule (s : KVState) : ScheduleResponse :=
  if s.team.isEmpty then .err
  else
    let team := s.team
    let teamSize : Int := (team.length : Int)
    let baseLastWeekIndex : Int := jsMod (s.currentIndex - 1 + teamSize) teamSize
    match jsIndex team s.currentIndex, jsIndex team baseLastWeekIndex with
    | some baseOnDuty, some baseLastWeek =>
        (match s.penaltyBox with
         | none => .ok baseOnDuty.name baseLastWeek.name none
         | some pb =>
             let offenderValid : Bool :=
               decide (0 ≤ pb.offenderIndex ∧ pb.offenderIndex < teamSize)
             let futureWeeks : Int := max 0 pb.weeksRemaining
             if offenderValid then
               match jsIndex team pb.offenderIndex with
               | none => .ok baseOnDuty.name baseLastWeek.name none
               | some offender =>
                   let penaltyActive : Bool :=
                     decide (pb.offenderIndex = s.currentIndex ∨ 0 < futureWeeks)
                   let penaltyPending : Bool := !penaltyActive && decide (0 < futureWeeks)
                   if penaltyActive || penaltyPending then
                     let displayWeeksRemaining : Int :=
                       if penaltyActive then futureWeeks + 1 else futureWeeks
                     let info : PenaltyInfo :=
                       { offenderName := offender.name,
                         weeksRemaining := displayWeeksRemaining,
                         rawWeeksRemaining := futureWeeks,
                         isActive := penaltyActive,
                         startsNextRotation := penaltyPending }
                     if penaltyPending then
                       .ok baseOnDuty.name offender.name (some info)
                     else
                       .ok offender.name offender.name (some info)
                   else .ok baseOnDuty.name baseLastWeek.name none
             else .ok baseOnDuty.name baseLastWeek.name none)
    | _, _ => .err

/-- Response of `POST /report`: `err` is a 500 (or an uncaught throw while
formatting the no-op message), `noop` the informational 200 that leaves the
store untouched, `recorded` the 200 after the penalty was written. -/
inductive ReportResult where
  | err
  | noop (offenderName : String)
  | recorded
deriving Repr, DecidableEq

/-- The `/report` branch of the `fetch` handler (`src/index.js`, mature
revision): the KV state after the call, the HTTP result, and the
penalty-alert send queue — the `recipients` of the broadcast the source
dispatches through `Promise.allSettled` after the two KV writes.  The queue
is empty on a 500, on a no-op, and when the `if (offender && offender.name)`
guard fails (offender lookup is `undefined` or the name is the empty
string); otherwise it holds the phone of every roster member whose phone is
a non-empty string (JS truthiness of `member.phone`; in this model members
always exist and phones are always strings, so the filter's other two
conjuncts always hold).  The alert message body repeats the offender's name
and is not modelled. -/
def reportFull (s : KVState) : KVState × ReportResult × List String :=
  if s.team.isEmpty then (s, .err, [])
  else
    let teamSize : Int := (s.team.length : Int)
    let existingFutureWeeks : Int :=
      match s.penaltyBox with
      | some pb => max 0 pb.weeksRemaining
      | none => 0
    let hasActivePenalty : Bool :=
      s.penaltyBox.isSome && decide (0 < existingFutureWeeks)
    let offenderIndex : Int :=
      if hasActivePenalty then
        match s.penaltyBox with
        | some pb => pb.offenderIndex
        | none => 0
      else jsMod (s.currentIndex - 1 + teamSize) teamSize
    let sameOffender : Bool :=
      match s.penaltyBox with
      | some pb => decide (pb.offenderIndex = offenderIndex)
      | none => false
    if hasActivePenalty && sameOffender &&
        decide (PENALTY_LENGTH - 1 ≤ existingFutureWeeks) then
      match jsIndex s.team offenderIndex with
      | some offender => (s, .noop offender.name, [])
      | none => (s, .err, [])
    else
      let penalty : PenaltyBox :=
        { offenderIndex := offenderIndex,
          weeksRemaining := max 0 (PENALTY_LENGTH - 1) }
      let alertQueue : List String :=
        match jsIndex s.team offenderIndex with
        | some offender =>
            if offender.name.isEmpty then []
            else (s.team.filter (fun m => !m.phone.isEmpty)).map Member.phone
        | none => []
      ({ s with penaltyBox := some penalty, currentIndex := offenderIndex },
       .recorded, alertQueue)

/-- State and HTTP result of `POST /report`, with the broadcast queue of
`reportFull` projected away; the state/response claims are stated over
this. -/
def report (s : KVState) : KVState × ReportResult :=
  ((reportFull s).1, (reportFull s).2.1)

/-- `const MAX_UPCOMING_ROWS = 3` from `src/script.js`. -/
def MAX_UPCOMING_ROWS : Nat := 3

/-- The `for (let step = 0; ...)` loop of `deriveUpcoming`
(`src/script.js`): while penalty weeks remain and an offender index was
stored, emit the offender; afterwards walk the normal rotation starting at
`(pointer + 1) % team.length`.  A failed member lookup breaks the loop. -/
def deriveUpcomingLoop (team : List Member) (offenderIndex : Option Int) :
    Nat → Int → Int → List String
  | 0, _, _ => []
  | steps + 1, pointer, penaltyWeeks =>
      if 0 < penaltyWeeks ∧ offenderIndex ≠ none then
        match offenderIndex.bind (jsIndex team) with
        | none => []
        | some offender =>
            offender.name ::
              deriveUpcomingLoop team offenderIndex steps pointer (penaltyWeeks - 1)
      else
        let p : Int := jsMod (pointer + 1) (team.length : Int)
        match jsIndex team p with
        | none => []
        | some person =>
            person.name :: deriveUpcomingLoop team offenderIndex steps p penaltyWeeks

/-- `deriveUpcoming` from `src/script.js`, on the data returned by the mature
worker's `/schedule` (which carries no precomputed `upcoming`, so the
client-side derivation always runs): team, parsed `currentIndex`, and the raw
`penaltyBox`. -/
def deriveUpcoming (team : List Member) (currentIndex : Int)
    (penaltyBox : Option PenaltyBox) : List String :=
  if team.length = 0 then []
  else
    let penaltyWeeks : Int :=
      match penaltyBox with
      | some pb => if pb.weeksRemaining < 0 then 0 else pb.weeksRemaining
      | none => 0
    deriveUpcomingLoop team (penaltyBox.map PenaltyBox.offenderIndex)
      MAX_UPCOMING_ROWS currentIndex penaltyWeeks

/-- Result object of `sendSms` (`src/index.js`, mature revision): the
function catches every failure and resolves with `{ ok: false, to }`, so it
never rejects. -/
structure SmsResult where
  ok : Bool
  recipient : String  -- the source's `to` field; `to` is reserved in Lean
deriving Repr, DecidableEq

/-- `sendSms`, abstracted over a delivery outcome per recipient (the Twilio
call's success or failure).  Faithful to the source's catch-all: the result
records the outcome instead of throwing. -/
def sendSms (delivery : String → Bool) (recipient : String) : SmsResult :=
  { ok := delivery recipient, recipient := recipient }

/-- `Promise.allSettled(sendQueue)` over the per-member queue: every queued
send runs; since `sendSms` never rejects, the settled values are exactly the
per-recipient results, in queue order. -/
def dispatchQueue (delivery : String → Bool) (recipients : List String) :
    List SmsResult :=
  recipients.map (sendSms delivery)

/-- One full `scheduled` invocation including notification fan-out: the state
mutation of `scheduledTick` happens first, then the queue is dispatched.
The failure filter and `console.error` that follow inspect the results but
change nothing. -/
def scheduledRun (delivery : String → Bool) (s : KVState) :
    KVState × Option (List SmsResult) :=
  let t := scheduledTick s
  (t.1, t.2.map (fun r => dispatchQueue delivery r.recipients))

/-- One full `POST /report` invocation including the penalty-alert fan-out:
the KV writes of `reportFull` happen first, then its alert queue is
dispatched through `Promise.allSettled`.  The failure filter and
`console.error` that follow inspect the results but change nothing. -/
def reportRun (delivery : String → Bool) (s : KVState) :
    KVState × ReportResult × List SmsResult :=
  let t := reportFull s
  (t.1, t.2.1, dispatchQueue delivery t.2.2)

/-! Concrete roster used by witnesses and counterexamples (Scenario A/B of
the spec). -/

def alice : Member := { name := "Alice", phone := "p0" }

def bob : Member := { name := "Bob", phone := "p1" }

def carol : Member := { name := "Carol", phone := "p2" }

def team3 : List Member := [alice, bob, carol]

/-! Helper lemmas about JavaScript-style indexing and remainder. -/

lemma jsIndex_some {team : List Member} {i : Int}
    (h0 : 0 ≤ i) (h1 : i < (team.length : Int)) :
    ∃ m, jsIndex team i = some m := by
  have hnat : i.toNat < team.length := by omega
  exact ⟨team.get ⟨i.toNat, hnat⟩, by simp [jsIndex, h0, List.get?_eq_get hnat]⟩

lemma jsMod_eq_emod {a b : Int} (ha : 0 ≤ a) (hb : 0 ≤ b) :
    jsMod a b = a % b :=
  Int.tmod_eq_emod ha hb

lemma team_not_isEmpty {s : KVState} (h : 0 < (s.team.length : Int)) :
    s.team.isEmpty = false := by
  cases hteam : s.team with
  | nil => rw [hteam] at h; simp at h
  | cons a l => rfl

/-- Claim C1: for every non-empty roster of length n and pointer with
`0 ≤ pointer < n` and no penalty record, one `scheduled` tick sets the stored
pointer to `(pointer + 1) % n`, reports `roster[(pointer + 1) % n]` as the
on-duty member for that week, and leaves no penalty record. -/
theorem tick_normal_advances_pointer (s : KVState)
    (hp0 : 0 ≤ s.currentIndex) (hp1 : s.currentIndex < (s.team.length : Int))
    (hpen : s.penaltyBox = none) :
    (scheduledTick s).1.currentIndex =
      (s.currentIndex + 1) % (s.team.length : Int) ∧
    ∃ r, (scheduledTick s).2 = some r ∧
      jsIndex s.team ((s.currentIndex + 1) % (s.team.length : Int)) =
        some r.personOnDuty := by
  have hn : 0 < (s.team.length : Int) := lt_of_le_of_lt hp0 hp1
  have hne := team_not_isEmpty hn
  have hmod : jsMod (s.currentIndex + 1) (s.team.length : Int) =
      (s.currentIndex + 1) % (s.team.length : Int) :=
    jsMod_eq_emod (by omega) (by omega)
  have hb0 : 0 ≤ (s.currentIndex + 1) % (s.team.length : Int) :=
    Int.emod_nonneg _ (by omega)
  have hb1 : (s.currentIndex + 1) % (s.team.length : Int) < (s.team.length : Int) :=
    Int.emod_lt_of_pos _ hn
  obtain ⟨m1, hm1⟩ := jsIndex_some hb0 hb1
  have hmod2 : jsMod ((s.currentIndex + 1) % (s.team.length : Int) + 1)
      (s.team.length : Int) =
      ((s.currentIndex + 1) % (s.team.length : Int) + 1) % (s.team.length : Int) :=
    jsMod_eq_emod (by omega) (by omega)
  have hb0' : 0 ≤ (s.currentIndex + 1 + 1) % (s.team.length : Int) :=
    Int.emod_nonneg _ (by omega)
  have hb1' : (s.currentIndex + 1 + 1) % (s.team.length : Int) <
      (s.team.length : Int) := Int.emod_lt_of_pos _ hn
  obtain ⟨m2, hm2⟩ := jsIndex_some hb0' hb1'
  refine ⟨?_, ?_⟩
  · simp [scheduledTick, hne, hpen, hmod]
  · refine ⟨{ personOnDuty := m1, nextPersonUp := m2,
              recipients := s.team.map Member.phone }, ?_, ?_⟩
    · simp [scheduledTick, hne, hpen, hmod, hmod2, hm1, hm2]
    · exact hm1

/-- Witness for C1, instantiated at Scenario A of the spec: roster
[Alice, Bob, Carol], pointer 0, no penalty. -/
theorem tick_normal_advances_pointer_witness :
    (scheduledTick { team := team3, currentIndex := 0, penaltyBox := none }).1.currentIndex =
      ((0 : Int) + 1) % ((team3.length : Nat) : Int) ∧
    ∃ r, (scheduledTick { team := team3, currentIndex := 0, penaltyBox := none }).2 = some r ∧
      jsIndex team3 (((0 : Int) + 1) % ((team3.length : Nat) : Int)) =
        some r.personOnDuty :=
  tick_normal_advances_pointer
    { team := team3, currentIndex := 0, penaltyBox := none }
    (by decide) (by decide) rfl

/-- Claim C2: whenever a valid penalty record is present (offender index in
range, `weeksRemaining > 0`), the tick handler does not write the rotation
pointer: the stored pointer after the tick equals the stored pointer
before. -/
theorem tick_penalty_preserves_pointer (s : KVState) (pb : PenaltyBox)
    (hpb : s.penaltyBox = some pb)
    (ho0 : 0 ≤ pb.offenderIndex) (ho1 : pb.offenderIndex < (s.team.length : Int))
    (hw : 0 < pb.weeksRemaining) :
    (scheduledTick s).1.currentIndex = s.currentIndex := by
  have hn : 0 < (s.team.length : Int) := lt_of_le_of_lt ho0 ho1
  have hne := team_not_isEmpty hn
  have hmax : max 0 pb.weeksRemaining = pb.weeksRemaining := max_eq_right hw.le
  have hnz : ¬ (max 0 pb.weeksRemaining = 0) := by omega
  simp [scheduledTick, hne, hpb, ho0, ho1, hnz]

/-- Witness for C2: roster of three, pointer 1, valid penalty
`{offenderIndex := 0, weeksRemaining := 2}`. -/
theorem tick_penalty_preserves_pointer_witness :
    (scheduledTick { team := team3, currentIndex := 1,
                     penaltyBox := some { offenderIndex := 0, weeksRemaining := 2 } }).1.currentIndex =
      (1 : Int) :=
  tick_penalty_preserves_pointer
    { team := team3, currentIndex := 1,
      penaltyBox := some { offenderIndex := 0, weeksRemaining := 2 } }
    { offenderIndex := 0, weeksRemaining := 2 }
    rfl (by decide) (by decide) (by decide)

/-- Claim C3: while a penalty is in progress each tick decreases the stored
`weeksRemaining` by exactly 1 without moving the pointer; a record found with
`weeksRemaining = 0` is deleted on that tick and the same tick behaves as
Normal, advancing the pointer by one mod n and putting the member at the new
pointer on duty. -/
theorem tick_penalty_countdown (s : KVState) (pb : PenaltyBox)
    (hpb : s.penaltyBox = some pb)
    (ho0 : 0 ≤ pb.offenderIndex) (ho1 : pb.offenderIndex < (s.team.length : Int))
    (hp0 : 0 ≤ s.currentIndex) :
    (0 < pb.weeksRemaining →
      (scheduledTick s).1.penaltyBox =
        some { offenderIndex := pb.offenderIndex,
               weeksRemaining := pb.weeksRemaining - 1 } ∧
      (scheduledTick s).1.currentIndex = s.currentIndex) ∧
    (pb.weeksRemaining = 0 →
      (scheduledTick s).1.penaltyBox = none ∧
      (scheduledTick s).1.currentIndex =
        (s.currentIndex + 1) % (s.team.length : Int) ∧
      ∃ r, (scheduledTick s).2 = some r ∧
        jsIndex s.team ((s.currentIndex + 1) % (s.team.length : Int)) =
          some r.personOnDuty) := by
  have hn : 0 < (s.team.length : Int) := lt_of_le_of_lt ho0 ho1
  have hne := team_not_isEmpty hn
  constructor
  · intro hw
    have hmax : max 0 pb.weeksRemaining = pb.weeksRemaining := max_eq_right hw.le
    have hnz : ¬ (max 0 pb.weeksRemaining = 0) := by omega
    have hmax2 : max 0 (max 0 pb.weeksRemaining - 1) = pb.weeksRemaining - 1 := by
      omega
    constructor <;> simp [scheduledTick, hne, hpb, ho0, ho1, hnz, hmax2]
  · intro hw
    have hz : max 0 pb.weeksRemaining = 0 := by omega
    have hmod : jsMod (s.currentIndex + 1) (s.team.length : Int) =
        (s.currentIndex + 1) % (s.team.length : Int) :=
      jsMod_eq_emod (by omega) (by omega)
    have hb0 : 0 ≤ (s.currentIndex + 1) % (s.team.length : Int) :=
      Int.emod_nonneg _ (by omega)
    have hb1 : (s.currentIndex + 1) % (s.team.length : Int) < (s.team.length : Int) :=
      Int.emod_lt_of_pos _ hn
    obtain ⟨m1, hm1⟩ := jsIndex_some hb0 hb1
    have hb0' : 0 ≤ (s.currentIndex + 1 + 1) % (s.team.length : Int) :=
      Int.emod_nonneg _ (by omega)
    have hb1' : (s.currentIndex + 1 + 1) % (s.team.length : Int) <
        (s.team.length : Int) := Int.emod_lt_of_pos _ hn
    obtain ⟨m2, hm2⟩ := jsIndex_some hb0' hb1'
    have hmod2 : jsMod ((s.currentIndex + 1) % (s.team.length : Int) + 1)
        (s.team.length : Int) =
        ((s.currentIndex + 1) % (s.team.length : Int) + 1) % (s.team.length : Int) :=
      jsMod_eq_emod (by omega) (by omega)
    refine ⟨?_, ?_, ?_⟩
    · simp [scheduledTick, hne, hpb, ho0, ho1, hz]
    · simp [scheduledTick, hne, hpb, ho0, ho1, hz, hmod]
    · refine ⟨{ personOnDuty := m1, nextPersonUp := m2,
                recipients := s.team.map Member.phone }, ?_, ?_⟩
      · simp [scheduledTick, hne, hpb, ho0, ho1, hz, hmod, hmod2, hm1, hm2]
      · exact hm1

/-- Mid-penalty state used by the C3 witness: offender 0, two weeks still
owed. -/
def stateMidPenalty : KVState :=
  { team := team3, currentIndex := 0,
    penaltyBox := some { offenderIndex := 0, weeksRemaining := 2 } }

/-- Scenario C state: offender 0, final week in progress
(`weeksRemaining = 0`). -/
def stateFinalWeek : KVState :=
  { team := team3, currentIndex := 0,
    penaltyBox := some { offenderIndex := 0, weeksRemaining := 0 } }

/-- Witness for C3, covering both branches: the mid-penalty state whose tick
stores `weeksRemaining = 1`, and Scenario C's final-week state whose tick
deletes the record and advances the pointer from 0 to 1. -/
theorem tick_penalty_countdown_witness :
    ((scheduledTick stateMidPenalty).1.penaltyBox =
        some { offenderIndex := 0, weeksRemaining := 2 - 1 } ∧
      (scheduledTick stateMidPenalty).1.currentIndex = 0) ∧
    ((scheduledTick stateFinalWeek).1.penaltyBox = none ∧
      (scheduledTick stateFinalWeek).1.currentIndex =
        ((0 : Int) + 1) % ((team3.length : Nat) : Int) ∧
      ∃ r, (scheduledTick stateFinalWeek).2 = some r ∧
        jsIndex team3 (((0 : Int) + 1) % ((team3.length : Nat) : Int)) =
          some r.personOnDuty) :=
  ⟨(tick_penalty_countdown stateMidPenalty
      { offenderIndex := 0, weeksRemaining := 2 }
      rfl (by decide) (by decide) (by decide)).1 (by decide),
   (tick_penalty_countdown stateFinalWeek
      { offenderIndex := 0, weeksRemaining := 0 }
      rfl (by decide) (by decide) (by decide)).2 rfl⟩

/-- Claim C4: with a non-empty roster, a pointer in range and no active
penalty, `POST /report` selects offender index `(pointer - 1 + n) % n`,
persists `{offenderIndex, weeksRemaining := PENALTY_LENGTH - 1 = 2}`, sets
the stored pointer to the offender index, and answers 200 (`recorded`). -/
theorem report_records_fresh_penalty (s : KVState)
    (hp0 : 0 ≤ s.currentIndex) (hp1 : s.currentIndex < (s.team.length : Int))
    (hpen : ∀ pb, s.penaltyBox = some pb → pb.weeksRemaining ≤ 0) :
    (report s).1.penaltyBox =
      some { offenderIndex :=
               (s.currentIndex - 1 + (s.team.length : Int)) % (s.team.length : Int),
             weeksRemaining := 2 } ∧
    (report s).1.currentIndex =
      (s.currentIndex - 1 + (s.team.length : Int)) % (s.team.length : Int) ∧
    (report s).2 = .recorded := by
  have hn : 0 < (s.team.length : Int) := lt_of_le_of_lt hp0 hp1
  have hne := team_not_isEmpty hn
  have hmod : jsMod (s.currentIndex - 1 + (s.team.length : Int)) (s.team.length : Int) =
      (s.currentIndex - 1 + (s.team.length : Int)) % (s.team.length : Int) :=
    jsMod_eq_emod (by omega) (by omega)
  have hact : (match s.penaltyBox with
      | some pb => max 0 pb.weeksRemaining
      | none => 0) = 0 := by
    cases hpb : s.penaltyBox with
    | none => rfl
    | some pb => have := hpen pb hpb; simp; omega
  refine ⟨?_, ?_, ?_⟩ <;>
    simp [report, reportFull, hne, hact, hmod, PENALTY_LENGTH]

/-- Witness for C4, instantiated at Scenario B of the spec: roster of three,
pointer 1, no penalty; the offender is member 0 (Alice). -/
theorem report_records_fresh_penalty_witness :
    (report { team := team3, currentIndex := 1, penaltyBox := none }).1.penaltyBox =
      some { offenderIndex :=
               ((1 : Int) - 1 + ((team3.length : Nat) : Int)) % ((team3.length : Nat) : Int),
             weeksRemaining := 2 } ∧
    (report { team := team3, currentIndex := 1, penaltyBox := none }).1.currentIndex =
      ((1 : Int) - 1 + ((team3.length : Nat) : Int)) % ((team3.length : Nat) : Int) ∧
    (report { team := team3, currentIndex := 1, penaltyBox := none }).2 =
      ReportResult.recorded :=
  report_records_fresh_penalty
    { team := team3, currentIndex := 1, penaltyBox := none }
    (by decide) (by decide) (by intro pb h; cases h)

/-- Counterexample to C5 as stated: with the still-active penalty
`{offenderIndex := 0, weeksRemaining := 1}` (one future week left — the
penalty has not reached its stored-0 final week), a second `POST /report`
for the same offender is NOT a no-op: it overwrites the record with
`weeksRemaining = 2` and answers `recorded`, changing the stored
`weeksRemaining`. -/
theorem report_renews_at_one_week_cex :
    (report { team := team3, currentIndex := 0,
              penaltyBox := some { offenderIndex := 0, weeksRemaining := 1 } }).1.penaltyBox =
      some { offenderIndex := 0, weeksRemaining := 2 } ∧
    (report { team := team3, currentIndex := 0,
              penaltyBox := some { offenderIndex := 0, weeksRemaining := 1 } }).2 =
      ReportResult.recorded := by
  constructor <;> rfl

/-- Claim C5 amended: a second `POST /report` while a penalty is active for
the same offender is a no-op (informational message, store untouched) only
when the stored `weeksRemaining` is at least `PENALTY_LENGTH - 1 = 2`; when
the stored `weeksRemaining` is 1 the report instead renews the penalty:
it rewrites the record with `weeksRemaining = 2` for the same offender and
sets the pointer to the offender index. -/
theorem report_active_noop_or_renew (s : KVState) (pb : PenaltyBox)
    (hpb : s.penaltyBox = some pb)
    (ho0 : 0 ≤ pb.offenderIndex) (ho1 : pb.offenderIndex < (s.team.length : Int)) :
    (PENALTY_LENGTH - 1 ≤ pb.weeksRemaining →
      ∃ off, jsIndex s.team pb.offenderIndex = some off ∧
        report s = (s, .noop off.name)) ∧
    (pb.weeksRemaining = 1 →
      (report s).1.penaltyBox =
        some { offenderIndex := pb.offenderIndex, weeksRemaining := 2 } ∧
      (report s).1.currentIndex = pb.offenderIndex ∧
      (report s).2 = .recorded) := by
  have hn : 0 < (s.team.length : Int) := lt_of_le_of_lt ho0 ho1
  have hne := team_not_isEmpty hn
  obtain ⟨off, hoff⟩ := jsIndex_some ho0 ho1
  constructor
  · intro hw
    have hwpos : 0 < pb.weeksRemaining := by
      simp [PENALTY_LENGTH] at hw; omega
    have hmax : max 0 pb.weeksRemaining = pb.weeksRemaining :=
      max_eq_right hwpos.le
    refine ⟨off, hoff, ?_⟩
    have hw2 : 2 ≤ pb.weeksRemaining := by
      simp only [PENALTY_LENGTH] at hw; omega
    simp [report, reportFull, hne, hpb, hmax, hoff, PENALTY_LENGTH, hwpos, hw2]
  · intro hw
    refine ⟨?_, ?_, ?_⟩ <;>
      simp [report, reportFull, hne, hpb, hw, PENALTY_LENGTH]

/-- Witness for the amended C5, covering both branches: at stored
`weeksRemaining = 2` the repeat report is a no-op naming Alice; at stored
`weeksRemaining = 1` it renews the record to `weeksRemaining = 2`. -/
theorem report_active_noop_or_renew_witness :
    (∃ off, jsIndex team3 (0 : Int) = some off ∧
      report stateMidPenalty = (stateMidPenalty, .noop off.name)) ∧
    ((report { team := team3, currentIndex := 0,
               penaltyBox := some { offenderIndex := 0, weeksRemaining := 1 } }).1.penaltyBox =
        some { offenderIndex := 0, weeksRemaining := 2 } ∧
      (report { team := team3, currentIndex := 0,
                penaltyBox := some { offenderIndex := 0, weeksRemaining := 1 } }).1.currentIndex =
        (0 : Int) ∧
      (report { team := team3, currentIndex := 0,
                penaltyBox := some { offenderIndex := 0, weeksRemaining := 1 } }).2 =
        ReportResult.recorded) :=
  ⟨(report_active_noop_or_renew stateMidPenalty
      { offenderIndex := 0, weeksRemaining := 2 }
      rfl (by decide) (by decide)).1 (by decide),
   (report_active_noop_or_renew
      { team := team3, currentIndex := 0,
        penaltyBox := some { offenderIndex := 0, weeksRemaining := 1 } }
      { offenderIndex := 0, weeksRemaining := 1 }
      rfl (by decide) (by decide)).2 rfl⟩

/-- Claim C6: a persisted penalty record whose offender index is out of
range for the current roster is treated as absent by `GET /schedule` — the
query still answers 200 with the normal-rotation on-duty and last-week
members and an empty `penaltyInfo` — and the `scheduled` tick deletes the
stale record from the store. -/
theorem stale_penalty_ignored_and_deleted (s : KVState) (pb : PenaltyBox)
    (hpb : s.penaltyBox = some pb)
    (hinv : ¬ (0 ≤ pb.offenderIndex ∧ pb.offenderIndex < (s.team.length : Int)))
    (hp0 : 0 ≤ s.currentIndex) (hp1 : s.currentIndex < (s.team.length : Int)) :
    (∃ m1 m2, jsIndex s.team s.currentIndex = some m1 ∧
      jsIndex s.team
        ((s.currentIndex - 1 + (s.team.length : Int)) % (s.team.length : Int)) =
        some m2 ∧
      schedule s = .ok m1.name m2.name none) ∧
    (scheduledTick s).1.penaltyBox = none := by
  have hn : 0 < (s.team.length : Int) := lt_of_le_of_lt hp0 hp1
  have hne := team_not_isEmpty hn
  have hmod : jsMod (s.currentIndex - 1 + (s.team.length : Int)) (s.team.length : Int) =
      (s.currentIndex - 1 + (s.team.length : Int)) % (s.team.length : Int) :=
    jsMod_eq_emod (by omega) (by omega)
  have hb0 : 0 ≤ (s.currentIndex - 1 + (s.team.length : Int)) % (s.team.length : Int) :=
    Int.emod_nonneg _ (by omega)
  have hb1 : (s.currentIndex - 1 + (s.team.length : Int)) % (s.team.length : Int) <
      (s.team.length : Int) := Int.emod_lt_of_pos _ hn
  obtain ⟨m1, hm1⟩ := jsIndex_some hp0 hp1
  obtain ⟨m2, hm2⟩ := jsIndex_some hb0 hb1
  have heq : (s.currentIndex - 1 + (s.team.length : Int)) % (s.team.length : Int) =
      (s.currentIndex - 1) % (s.team.length : Int) := by
    simp
  have hm2' : jsIndex s.team ((s.currentIndex - 1) % (s.team.length : Int)) = some m2 := by
    rwa [heq] at hm2
  refine ⟨⟨m1, m2, hm1, hm2, ?_⟩, ?_⟩
  · simp [schedule, hne, hpb, hmod, hm1, hm2', hinv]
  · simp [scheduledTick, hne, hpb, hinv]

/-- Scenario D state: roster of three, pointer 0, stale penalty record whose
offender index 5 is beyond the roster. -/
def stateStalePenalty : KVState :=
  { team := team3, currentIndex := 0,
    penaltyBox := some { offenderIndex := 5, weeksRemaining := 2 } }

/-- Witness for C6, instantiated at Scenario D. -/
theorem stale_penalty_ignored_and_deleted_witness :
    (∃ m1 m2, jsIndex team3 (0 : Int) = some m1 ∧
      jsIndex team3
        (((0 : Int) - 1 + ((team3.length : Nat) : Int)) % ((team3.length : Nat) : Int)) =
        some m2 ∧
      schedule stateStalePenalty = .ok m1.name m2.name none) ∧
    (scheduledTick stateStalePenalty).1.penaltyBox = none :=
  stale_penalty_ignored_and_deleted stateStalePenalty
    { offenderIndex := 5, weeksRemaining := 2 }
    rfl (by decide) (by decide) (by decide)

/-- Claim C7: for a valid stored penalty record (non-negative stored
`weeksRemaining`), whenever `GET /schedule` reports a `penaltyInfo`, its
displayed `weeksRemaining` equals the stored value plus one when the status
is Active, and the raw stored value when the status is Pending
(`startsNextRotation`). -/
theorem schedule_display_weeks (s : KVState) (pb : PenaltyBox)
    (hpb : s.penaltyBox = some pb) (hw : 0 ≤ pb.weeksRemaining) :
    ∀ onDuty lastWeek info,
      schedule s = .ok onDuty lastWeek (some info) →
      (info.isActive = true → info.weeksRemaining = pb.weeksRemaining + 1) ∧
      (info.startsNextRotation = true → info.weeksRemaining = pb.weeksRemaining) := by
  intro onDuty lastWeek info h
  have hmax : max 0 pb.weeksRemaining = pb.weeksRemaining := max_eq_right hw
  simp only [schedule, hpb, hmax] at h
  repeat' split at h
  all_goals
    first
      | (cases h; constructor <;> intro hflag <;> simp_all)
      | simp_all

/-- Witness for C7: roster of three, pointer 0, active penalty
`{offenderIndex := 0, weeksRemaining := 2}`; the query reports display
weeks 3 = 2 + 1 with status Active. -/
theorem schedule_display_weeks_witness :
    ({ offenderName := "Alice", weeksRemaining := 3, rawWeeksRemaining := 2,
       isActive := true, startsNextRotation := false : PenaltyInfo }.isActive = true →
      ({ offenderName := "Alice", weeksRemaining := 3, rawWeeksRemaining := 2,
         isActive := true, startsNextRotation := false : PenaltyInfo }.weeksRemaining =
        (2 : Int) + 1)) ∧
    ({ offenderName := "Alice", weeksRemaining := 3, rawWeeksRemaining := 2,
       isActive := true, startsNextRotation := false : PenaltyInfo }.startsNextRotation = true →
      ({ offenderName := "Alice", weeksRemaining := 3, rawWeeksRemaining := 2,
         isActive := true, startsNextRotation := false : PenaltyInfo }.weeksRemaining =
        (2 : Int))) :=
  schedule_display_weeks stateMidPenalty
    { offenderIndex := 0, weeksRemaining := 2 }
    rfl (by decide) "Alice" "Alice"
    { offenderName := "Alice", weeksRemaining := 3, rawWeeksRemaining := 2,
      isActive := true, startsNextRotation := false }
    (by decide)

/-- Counterexample to C8 as stated: roster [Alice, Bob, Carol], pointer 0,
penalty `{offenderIndex := 0, weeksRemaining := 2}` (two future weeks).  The
upcoming list of length 3 is [Alice, Alice, Bob]: after the offender's two
entries the normal rotation continues at `roster[(pointer+1) mod n]` = Bob,
not at `roster[pointer]` = Alice as the claim predicts. -/
theorem deriveUpcoming_third_entry_cex :
    deriveUpcoming team3 0
        (some { offenderIndex := 0, weeksRemaining := 2 }) =
      [alice.name, alice.name, bob.name] ∧
    deriveUpcoming team3 0
        (some { offenderIndex := 0, weeksRemaining := 2 }) ≠
      [alice.name, alice.name, alice.name] := by
  constructor
  · rfl
  · decide

/-- Claim C8 amended: for every roster, pointer in range and penalty with
exactly two future weeks stored (`weeksRemaining = 2`), the upcoming list of
length `MAX_UPCOMING_ROWS = 3` derived by the dashboard is
[offender, offender, roster[(pointer + 1) mod n]]: the offender once per
remaining future week, then the normal rotation resuming at the pointer's
successor. -/
theorem deriveUpcoming_penalty_two_weeks (team : List Member) (p oi : Int)
    (hp0 : 0 ≤ p) (hp1 : p < (team.length : Int)) :
    ∀ off nxt, jsIndex team oi = some off →
      jsIndex team ((p + 1) % (team.length : Int)) = some nxt →
      deriveUpcoming team p
          (some { offenderIndex := oi, weeksRemaining := 2 }) =
        [off.name, off.name, nxt.name] := by
  intro off nxt hoff hnxt
  have hn : 0 < (team.length : Int) := lt_of_le_of_lt hp0 hp1
  have hlen : ¬ (team.length = 0) := by omega
  have hmod : jsMod (p + 1) (team.length : Int) = (p + 1) % (team.length : Int) :=
    jsMod_eq_emod (by omega) (by omega)
  simp [deriveUpcoming, hlen, MAX_UPCOMING_ROWS, deriveUpcomingLoop,
    hoff, hmod, hnxt]

/-- Witness for the amended C8, at the counterexample's input: pointer 0,
offender 0, two stored weeks; the derived list is [Alice, Alice, Bob]. -/
theorem deriveUpcoming_penalty_two_weeks_witness :
    deriveUpcoming team3 0
        (some { offenderIndex := 0, weeksRemaining := 2 }) =
      [alice.name, alice.name, bob.name] :=
  deriveUpcoming_penalty_two_weeks team3 0 0
    (by decide) (by decide)
    alice bob (by decide) (by decide)

/-- Every report produced by a tick queues exactly one message per roster
member, in roster order (the `for (const [personIndex, person] of
team.entries())` loop pushes one `sendSms` per member). -/
lemma tick_report_recipients (s : KVState) (r : TickReport)
    (h : (scheduledTick s).2 = some r) :
    r.recipients = s.team.map Member.phone := by
  unfold scheduledTick at h
  repeat' first
    | split at h
    | dsimp only at h
  all_goals first
    | (cases h; rfl)
    | simp_all

/-- `Promise.allSettled` over a `sendSms` queue settles exactly one result
per queued send, for the queued recipient, in queue order, whatever the
delivery outcomes (`sendSms` never rejects). -/
lemma dispatchQueue_recipients (delivery : String → Bool) (q : List String) :
    (dispatchQueue delivery q).map SmsResult.recipient = q := by
  have hcomp : SmsResult.recipient ∘ sendSms delivery = id := rfl
  simp [dispatchQueue, List.map_map, hcomp]

/-- Claim C9: the per-member notification batch of one tick invocation and
the penalty-alert batch of one report invocation are both isolated from
delivery failures — each invocation's persisted state and HTTP result do not
depend on any delivery outcome (no rollback), and for every outcome
assignment the settled results cover every queued recipient exactly once, in
order (no send is blocked by another's failure, and none is retried): the
tick's queue is one message per roster member, the report's queue is its
penalty-alert recipient list. -/
theorem notification_dispatch_isolation (delivery : String → Bool) (s : KVState) :
    ((scheduledRun delivery s).1 = (scheduledTick s).1 ∧
      ∀ results, (scheduledRun delivery s).2 = some results →
        results.map SmsResult.recipient = s.team.map Member.phone) ∧
    ((reportRun delivery s).1 = (report s).1 ∧
      (reportRun delivery s).2.1 = (report s).2 ∧
      (reportRun delivery s).2.2.map SmsResult.recipient = (reportFull s).2.2) := by
  refine ⟨⟨rfl, ?_⟩, rfl, rfl, dispatchQueue_recipients delivery _⟩
  intro results h
  cases hr : (scheduledTick s).2 with
  | none => simp [scheduledRun, hr] at h
  | some r =>
      simp only [scheduledRun, hr, Option.map_some'] at h
      cases h
      rw [dispatchQueue_recipients]
      exact tick_report_recipients s r hr

/-- Witness for C9, with a delivery oracle that fails for Bob's phone: on
Scenario A's state the tick's settled results still cover all three members
in order and the state is the tick's state; on Scenario B's state the
report's penalty-alert results cover its whole queue and state and response
are the report's. -/
theorem notification_dispatch_isolation_witness :
    ((scheduledRun (fun p => p != "p1")
        { team := team3, currentIndex := 0, penaltyBox := none }).1 =
      (scheduledTick { team := team3, currentIndex := 0, penaltyBox := none }).1 ∧
     ([{ ok := true, recipient := "p0" }, { ok := false, recipient := "p1" },
       { ok := true, recipient := "p2" }] : List SmsResult).map SmsResult.recipient =
       team3.map Member.phone) ∧
    ((reportRun (fun p => p != "p1")
        { team := team3, currentIndex := 1, penaltyBox := none }).1 =
      (report { team := team3, currentIndex := 1, penaltyBox := none }).1 ∧
     (reportRun (fun p => p != "p1")
        { team := team3, currentIndex := 1, penaltyBox := none }).2.1 =
      (report { team := team3, currentIndex := 1, penaltyBox := none }).2 ∧
     (reportRun (fun p => p != "p1")
        { team := team3, currentIndex := 1, penaltyBox := none }).2.2.map
         SmsResult.recipient =
      (reportFull { team := team3, currentIndex := 1, penaltyBox := none }).2.2) :=
  ⟨⟨(notification_dispatch_isolation (fun p => p != "p1")
      { team := team3, currentIndex := 0, penaltyBox := none }).1.1,
    (notification_dispatch_isolation (fun p => p != "p1")
      { team := team3, currentIndex := 0, penaltyBox := none }).1.2
      [{ ok := true, recipient := "p0" }, { ok := false, recipient := "p1" },
       { ok := true, recipient := "p2" }] (by decide)⟩,
   (notification_dispatch_isolation (fun p => p != "p1")
      { team := team3, currentIndex := 1, penaltyBox := none }).2⟩

/-- After a recorded report the store holds pointer = offenderIndex = oi and
penalty ⟨oi, 2⟩; the query classifies such a state as Active. -/
lemma schedule_active_of_pointer_match (t : List Member) (oi w : Int)
    (h0 : 0 ≤ oi) (h1 : oi < (t.length : Int)) (hw : 0 ≤ w) :
    ∃ off, jsIndex t oi = some off ∧
      schedule { team := t, currentIndex := oi,
                 penaltyBox := some { offenderIndex := oi, weeksRemaining := w } } =
        .ok off.name off.name
          (some { offenderName := off.name, weeksRemaining := w + 1,
                  rawWeeksRemaining := w, isActive := true,
                  startsNextRotation := false }) := by
  have hn : 0 < (t.length : Int) := lt_of_le_of_lt h0 h1
  have hne : t.isEmpty = false := by
    cases t with
    | nil => simp at hn
    | cons a l => rfl
  have hmax : max 0 w = w := max_eq_right hw
  obtain ⟨off, hoff⟩ := jsIndex_some h0 h1
  have hb0 : 0 ≤ (oi - 1 + (t.length : Int)) % (t.length : Int) :=
    Int.emod_nonneg _ (by omega)
  have hb1 : (oi - 1 + (t.length : Int)) % (t.length : Int) < (t.length : Int) :=
    Int.emod_lt_of_pos _ hn
  have hmod : jsMod (oi - 1 + (t.length : Int)) (t.length : Int) =
      (oi - 1 + (t.length : Int)) % (t.length : Int) :=
    jsMod_eq_emod (by omega) (by omega)
  obtain ⟨m2, hm2⟩ := jsIndex_some hb0 hb1
  have heq : (oi - 1 + (t.length : Int)) % (t.length : Int) =
      (oi - 1) % (t.length : Int) := by simp
  have hm2a : jsIndex t ((oi - 1) % (t.length : Int)) = some m2 := by
    rwa [heq] at hm2
  refine ⟨off, hoff, ?_⟩
  simp [schedule, hne, hoff, hmod, hm2a, h0, h1, hmax]

/-- Claim C10: from any state this code produces (pointer in range, stored
penalty absent or referencing a roster index), a successful (non-no-op)
`POST /report` sets the stored pointer equal to the recorded offender index,
and `GET /schedule` on the resulting state classifies the penalty as Active,
never Pending. -/
theorem report_recorded_schedule_active (s : KVState)
    (hp0 : 0 ≤ s.currentIndex) (hp1 : s.currentIndex < (s.team.length : Int))
    (hval : ∀ pb, s.penaltyBox = some pb →
      0 ≤ pb.offenderIndex ∧ pb.offenderIndex < (s.team.length : Int))
    (hrec : (report s).2 = .recorded) :
    (∀ pb, (report s).1.penaltyBox = some pb →
      (report s).1.currentIndex = pb.offenderIndex) ∧
    ∃ onDuty lastWeek info,
      schedule (report s).1 = .ok onDuty lastWeek (some info) ∧
      info.isActive = true ∧ info.startsNextRotation = false := by
  have hn : 0 < (s.team.length : Int) := lt_of_le_of_lt hp0 hp1
  have hne := team_not_isEmpty hn
  have hchar : ∃ oi, 0 ≤ oi ∧ oi < (s.team.length : Int) ∧
      (report s).1 = { team := s.team, currentIndex := oi,
                       penaltyBox := some { offenderIndex := oi,
                                            weeksRemaining := 2 } } := by
    cases hpb : s.penaltyBox with
    | none =>
        refine ⟨(s.currentIndex - 1 + (s.team.length : Int)) % (s.team.length : Int),
          Int.emod_nonneg _ (by omega), Int.emod_lt_of_pos _ hn, ?_⟩
        have hmod : jsMod (s.currentIndex - 1 + (s.team.length : Int))
            (s.team.length : Int) =
            (s.currentIndex - 1 + (s.team.length : Int)) % (s.team.length : Int) :=
          jsMod_eq_emod (by omega) (by omega)
        simp [report, reportFull, hne, hpb, hmod, PENALTY_LENGTH]
    | some pb =>
        have hrange := hval pb hpb
        by_cases hw : 0 < pb.weeksRemaining
        · have hmax : max 0 pb.weeksRemaining = pb.weeksRemaining :=
            max_eq_right hw.le
          by_cases hw2 : 2 ≤ pb.weeksRemaining
          · exfalso
            obtain ⟨off, hoff⟩ := jsIndex_some hrange.1 hrange.2
            simp [report, reportFull, hne, hpb, hmax, hw, hw2, hoff,
              PENALTY_LENGTH] at hrec
          · refine ⟨pb.offenderIndex, hrange.1, hrange.2, ?_⟩
            simp [report, reportFull, hne, hpb, hmax, hw, hw2, PENALTY_LENGTH]
        · have hmax0 : max 0 pb.weeksRemaining = 0 := by omega
          refine ⟨(s.currentIndex - 1 + (s.team.length : Int)) % (s.team.length : Int),
            Int.emod_nonneg _ (by omega), Int.emod_lt_of_pos _ hn, ?_⟩
          have hmod : jsMod (s.currentIndex - 1 + (s.team.length : Int))
              (s.team.length : Int) =
              (s.currentIndex - 1 + (s.team.length : Int)) % (s.team.length : Int) :=
            jsMod_eq_emod (by omega) (by omega)
          simp [report, reportFull, hne, hpb, hmax0, hmod, PENALTY_LENGTH]
  obtain ⟨oi, ho0, ho1, hstate⟩ := hchar
  constructor
  · intro pb hpb
    rw [hstate] at hpb ⊢
    cases hpb
    rfl
  · obtain ⟨off, hoff, hsched⟩ :=
      schedule_active_of_pointer_match s.team oi 2 ho0 ho1 (by omega)
    refine ⟨off.name, off.name,
      { offenderName := off.name, weeksRemaining := 2 + 1, rawWeeksRemaining := 2,
        isActive := true, startsNextRotation := false }, ?_, rfl, rfl⟩
    rw [hstate]
    exact hsched


/-- Witness for C10, instantiated at Scenario B: roster of three, pointer 1,
no penalty; the report records offender 0 and the subsequent query shows an
Active penalty. -/
theorem report_recorded_schedule_active_witness :
    ((report { team := team3, currentIndex := 1, penaltyBox := none }).1.currentIndex =
      (0 : Int)) ∧
    ∃ onDuty lastWeek info,
      schedule (report { team := team3, currentIndex := 1, penaltyBox := none }).1 =
        .ok onDuty lastWeek (some info) ∧
      info.isActive = true ∧ info.startsNextRotation = false :=
  ⟨(report_recorded_schedule_active
      { team := team3, currentIndex := 1, penaltyBox := none }
      (by decide) (by decide) (by intro pb h; cases h) (by decide)).1
      { offenderIndex := 0, weeksRemaining := 2 } (by decide),
   (report_recorded_schedule_active
      { team := team3, currentIndex := 1, penaltyBox := none }
      (by decide) (by decide) (by intro pb h; cases h) (by decide)).2⟩

end TrashBot

